import Mathlib

/-!
Verification of `examples/large_deformation/hyperelastic_tl_up_interactive.py`
(sfepy): an incompressible Mooney-Rivlin hyperelastic block under prescribed
uniaxial stretch, solved with a mixed displacement-pressure total Lagrangian
formulation.

The numeric data of the script (numpy float arrays, scalars) is embedded over `ℚ`
with exact arithmetic; 2-d coordinate / DOF arrays of shape (n, 3) become
lists of triples, 1-d arrays become lists.  Library machinery of sfepy that
is not part of the repository source (the `problem.evaluate` engine, the
`Material` evaluation semantics) is either abstracted as a function
parameter or modelled from the specification, as noted on each definition.
-/

set_option linter.unusedVariables false

namespace Hyper

/-- Material parameter `C10 = 20.` (module level constant of the script). -/
def C10 : ℚ := 20

/-- Material parameter `C01 = 10.` (module level constant of the script). -/
def C01 : ℚ := 10

/-- The `ts` object handed to boundary-condition functions; the script
reads only its `time` attribute, `step` stands for the rest of its state. -/
structure TSObj where
  time : ℚ
  step : ℕ

/-- The function `get_displacement(ts, coors, bc=None, problem=None)`,
returning `1. * ts.time * coors[:, 0]`.  Coordinates are rows `(x, y, z)`. -/
def get_displacement (ts : TSObj) (coors : List (ℚ × ℚ × ℚ))
    (bc : Option Unit) (problem : Option Unit) : List ℚ :=
  coors.map (fun c => 1 * ts.time * c.1)

/-- The array `stretch = 1 + np.array(global_displacement) /
undeformed_lenght` (elementwise, from `plot_graphs`). -/
def plot_stretch (undeformed_lenght : ℚ) (global_displacement : List ℚ) :
    List ℚ :=
  global_displacement.map (fun d => 1 + d / undeformed_lenght)

/-- The array `stress_fem = stress_fem_2pk * stretch**2` (elementwise,
from `plot_graphs`; `stress_fem_2pk` is the list `global_stress` itself). -/
def plot_stress_fem (undeformed_lenght : ℚ)
    (global_displacement global_stress : List ℚ) : List ℚ :=
  List.zipWith (fun s lam => s * lam ^ 2) global_stress
    (plot_stretch undeformed_lenght global_displacement)

/-- The array `stress_analytic = 2 * (C10 + C01/stretch) * (stretch**2 -
1./stretch)` (elementwise, from `plot_graphs`). -/
def plot_stress_analytic (undeformed_lenght : ℚ)
    (global_displacement : List ℚ) : List ℚ :=
  (plot_stretch undeformed_lenght global_displacement).map
    (fun lam => 2 * (C10 + C01 / lam) * (lam ^ 2 - 1 / lam))

/-- The (stretch, true stress) pairs that `plot_graphs` plots. -/
def plot_pairs (undeformed_lenght : ℚ)
    (global_displacement global_stress : List ℚ) : List (ℚ × ℚ) :=
  List.zip (plot_stretch undeformed_lenght global_displacement)
    (plot_stress_fem undeformed_lenght global_displacement global_stress)

/-- Spec-side formula: `stretch = 1 + normalized displacement`. -/
def spec_stretch (l d : ℚ) : ℚ := 1 + d / l

/-- Spec-side formula: true axial stress obtained from the axial second
Piola-Kirchhoff stress by `s2pk * λ²`. -/
def spec_true_stress (s2pk lam : ℚ) : ℚ := s2pk * lam ^ 2

/-- Spec-side analytic curve `σ(λ) = 2·(C10 + C01/λ)·(λ² − 1/λ)`. -/
def spec_sigma (lam : ℚ) : ℚ := 2 * (C10 + C01 / lam) * (lam ^ 2 - 1 / lam)

/-- A query issued through `problem.evaluate` in `stress_strain`: the term
name, the quadrature order and region spliced into the format string
`name.%d.Omega(args)` with `%d = 2*order`, the positional arguments in the
parentheses, and the keyword arguments `mode` and `term_mode`. -/
structure EvalQuery where
  term : String
  quad_order : ℤ
  region : String
  args : List String
  mode : String
  term_mode : String
deriving DecidableEq, Repr

/-- Query `dw_tl_he_neohook.%d.Omega(m.mu, v, u)` at `%d = 2*order` with
`term_mode` set to `strain`. -/
def strain_query (order : ℤ) : EvalQuery :=
  ⟨"dw_tl_he_neohook", 2 * order, "Omega", ["m.mu", "v", "u"],
   "el_avg", "strain"⟩

/-- Query `dw_tl_he_neohook.%d.Omega(m.mu, v, u)` at `%d = 2*order` with
`term_mode` set to `stress`. -/
def stress10_query (order : ℤ) : EvalQuery :=
  ⟨"dw_tl_he_neohook", 2 * order, "Omega", ["m.mu", "v", "u"],
   "el_avg", "stress"⟩

/-- Query `dw_tl_he_mooney_rivlin.%d.Omega(m.kappa, v, u)` at
`%d = 2*order` with `term_mode` set to `stress`. -/
def stress01_query (order : ℤ) : EvalQuery :=
  ⟨"dw_tl_he_mooney_rivlin", 2 * order, "Omega", ["m.kappa", "v", "u"],
   "el_avg", "stress"⟩

/-- Query `dw_tl_bulk_pressure.%d.Omega(v, u, p)` at `%d = 2*order` with
`term_mode` set to `stress`. -/
def stressP_query (order : ℤ) : EvalQuery :=
  ⟨"dw_tl_bulk_pressure", 2 * order, "Omega", ["v", "u", "p"],
   "el_avg", "stress"⟩

/-- Elementwise numpy addition of two equal-shape arrays (flattened). -/
def npAdd (a b : List ℚ) : List ℚ := List.zipWith (· + ·) a b

/-- Computation of `np.max` of a 1-d array. -/
def npMax (l : List ℚ) : ℚ := l.foldl max (l.headD 0)

/-- A `Struct(name=output_data, mode=cell, data=..., dofs=None)` value
stored into the `out` dictionary. -/
structure OutStruct where
  name : String
  mode : String
  data : List ℚ
deriving DecidableEq, Repr

/-- The `out` dictionary passed to the post-process hook: the `data` field
of its `u` entry is the nodal displacement array (rows `(u_x, u_y, u_z)`);
`stress_strain` adds the keys `green_strain` and `stress`. -/
structure Out where
  u_data : List (ℚ × ℚ × ℚ)
  green_strain : Option OutStruct
  stress : Option OutStruct
deriving DecidableEq, Repr

/-- The module-level accumulators `global_stress` and `global_displacement`. -/
structure PPState where
  global_stress : List ℚ
  global_displacement : List ℚ
deriving DecidableEq, Repr

/-- The post-process hook `stress_strain(out, problem, _state, order=1)`:
the evaluation engine `problem.evaluate` is abstracted as the function argument `ev`
(flattened cell data per query).  Returns the updated `out` dictionary and
the updated accumulator pair. -/
def stress_strain (ev : EvalQuery → List ℚ) (order : ℤ) (out : Out)
    (st : PPState) : Out × PPState :=
  let strain := ev (strain_query order)
  let stress_10 := ev (stress10_query order)
  let stress_01 := ev (stress01_query order)
  let stress_p := ev (stressP_query order)
  let stress := npAdd (npAdd stress_10 stress_01) stress_p
  let out' : Out :=
    { out with
      green_strain := some ⟨"output_data", "cell", strain⟩,
      stress := some ⟨"output_data", "cell", stress⟩ }
  let st' : PPState :=
    { global_stress := st.global_stress ++ [stress.getD 0 0],
      global_displacement :=
        st.global_displacement ++ [npMax (out.u_data.map (·.1))] }
  (out', st')

/-- A weak-form term of `main`, built by `Term.new` from a textual
`name(args)` expression.  All five terms share the single integral object
of quadrature order `2*order`. -/
structure TermSpec where
  name : String
  args : List String
deriving DecidableEq, Repr

/-- The quadrature order of the integral built in `main` (named `i`,
order `2*order`), as a function of the approximation order. -/
def integral_order (order : ℤ) : ℤ := 2 * order

/-- Term `dw_tl_he_neohook(m.mu, v, u)` of the balance equation. -/
def term_neohook : TermSpec := ⟨"dw_tl_he_neohook", ["m.mu", "v", "u"]⟩

/-- Term `dw_tl_he_mooney_rivlin(m.kappa, v, u)` of the balance equation. -/
def term_mooney : TermSpec := ⟨"dw_tl_he_mooney_rivlin", ["m.kappa", "v", "u"]⟩

/-- Term `dw_tl_bulk_pressure(v, u, p)` of the balance equation. -/
def term_pressure : TermSpec := ⟨"dw_tl_bulk_pressure", ["v", "u", "p"]⟩

/-- Term `dw_tl_volume(q, u)` (with `term_mode` set to `volume`). -/
def term_volume_change : TermSpec := ⟨"dw_tl_volume", ["q", "u"]⟩

/-- Term `dw_volume_integrate(q)`. -/
def term_volume : TermSpec := ⟨"dw_volume_integrate", ["q"]⟩

/-- The balance equation, `term_neohook + term_mooney + term_pressure`:
a signed sum of terms, `true` marking `+`. -/
def eq_balance : List (Bool × TermSpec) :=
  [(true, term_neohook), (true, term_mooney), (true, term_pressure)]

/-- The volume equation, `term_volume_change - term_volume`. -/
def eq_volume : List (Bool × TermSpec) :=
  [(true, term_volume_change), (false, term_volume)]

/-- Value of one term under an interpretation `I` of term kernels and an
assignment `env` of the (abstracted) field variables: a term reads exactly
the variables named in its argument list. -/
def termValue (I : String → List ℚ → ℚ) (env : String → ℚ)
    (t : TermSpec) : ℚ :=
  I t.name (t.args.map env)

/-- Residual of an equation: signed sum of its term values. -/
def eqResidual (I : String → List ℚ → ℚ) (env : String → ℚ)
    (e : List (Bool × TermSpec)) : ℚ :=
  (e.map (fun bt => if bt.1 then termValue I env bt.2
                    else -termValue I env bt.2)).sum

/-- A field created by `Field.from_args(name, np.float64, kind, omega,
approx_order=...)`. -/
structure FieldSpec where
  name : String
  kind : String
  approx_order : ℤ
deriving DecidableEq, Repr

/-- The pressure field of `main`: `Field.from_args` with name `fu`,
kind `scalar` and `approx_order=order-1`. -/
def scalar_field (order : ℤ) : FieldSpec := ⟨"fu", "scalar", order - 1⟩

/-- The displacement field of `main`: `Field.from_args` with name `fv`,
kind `vector` and `approx_order=order`. -/
def vector_field (order : ℤ) : FieldSpec := ⟨"fv", "vector", order⟩

/-- The sfepy `Material` built in `main`; the script passes exactly the two
scalar keyword arguments `mu` and `kappa`. -/
structure Material where
  mu : ℚ
  kappa : ℚ
deriving DecidableEq, Repr

/-- The material built in `main`: `mu=2*C10`, `kappa=2*C01`. -/
def m : Material := ⟨2 * C10, 2 * C01⟩

/-- Modelled from the spec: the sfepy `Material` class (not part of this
source tree of this repository) evaluated at a time step, time and reference
point; per §3 of the spec the two Mooney-Rivlin coefficients are "constant
over the domain and time", so a scalar-parameter material evaluates to the
same scalars everywhere and always. -/
def material_at (step : ℕ) (t : ℚ) (x : ℚ × ℚ × ℚ) : Material := m

/-- The prescribed value of one constrained DOF component: a fixed scalar
or a function of time and coordinates. -/
inductive BCVal where
  | const : ℚ → BCVal
  | fn : (TSObj → List (ℚ × ℚ × ℚ) → Option Unit → Option Unit → List ℚ) →
      BCVal

/-- `EssentialBC(name, region, {dof: value})`. -/
structure EssentialBC where
  name : String
  region : String
  dofs : List (String × BCVal)

/-- The function object `disp_fun` wrapping `get_displacement` for the BC
slot, forwarding the `bc` and `problem` keyword arguments. -/
def disp_fun : TSObj → List (ℚ × ℚ × ℚ) → Option Unit → Option Unit →
    List ℚ :=
  fun ts coors bc pb => get_displacement ts coors bc pb

/-- The BC `x_sym` on region Left, fixing component `u.0` to `0.0`. -/
def x_sym : EssentialBC := ⟨"x_sym", "Left", [("u.0", BCVal.const 0)]⟩

/-- The BC `y_sym` on region Near, fixing component `u.1` to `0.0`. -/
def y_sym : EssentialBC := ⟨"y_sym", "Near", [("u.1", BCVal.const 0)]⟩

/-- The BC `z_sym` on region Bottom, fixing component `u.2` to `0.0`. -/
def z_sym : EssentialBC := ⟨"z_sym", "Bottom", [("u.2", BCVal.const 0)]⟩

/-- The BC `displacement` on region Right, prescribing component `u.0`
through `disp_fun`. -/
def displacement : EssentialBC :=
  ⟨"displacement", "Right", [("u.0", BCVal.fn disp_fun)]⟩

/-- The list `Conditions([x_sym, y_sym, z_sym, displacement])`. -/
def ebcs : List EssentialBC := [x_sym, y_sym, z_sym, displacement]

/-- The programmatic default of `main`, from the line
`if centre is None: centre = [0.5*dim for dim in dims]`. -/
def main_default_centre (dims : List ℚ) : List ℚ :=
  dims.map (fun dim => 1 / 2 * dim)

/-- Resolution of the centre argument of `main`: the given value, or the
dims-dependent default. -/
def main_centre (centre : Option (List ℚ)) (dims : List ℚ) : List ℚ :=
  centre.getD (main_default_centre dims)

/-- Default of the `--centre` CLI option in `parse_args`, the fixed
constant `[0.5, 0.5, 0.5]`. -/
def cli_default_centre : List ℚ := [1 / 2, 1 / 2, 1 / 2]

/-- Claim C1: for every recorded diagnostics history and every positive
undeformed length, `plot_graphs` computes each output pair as
stretch = 1 + (recorded max axial displacement)/(undeformed length) and
true axial stress = (recorded axial 2PK stress) · stretch², and the
analytic reference elementwise as 2·(C10 + C01/λ)·(λ² − 1/λ): its outputs
coincide with the spec-side formulas. -/
theorem C1_plot_graphs_refines_spec (l : ℚ) (hl : 0 < l)
    (gd gs : List ℚ) :
    plot_stretch l gd = gd.map (spec_stretch l) ∧
    plot_stress_fem l gd gs =
      List.zipWith spec_true_stress gs (gd.map (spec_stretch l)) ∧
    plot_stress_analytic l gd = (gd.map (spec_stretch l)).map spec_sigma ∧
    plot_pairs l gd gs =
      List.zip (gd.map (spec_stretch l))
        (List.zipWith spec_true_stress gs (gd.map (spec_stretch l))) :=
  ⟨rfl, rfl, rfl, rfl⟩

/-- Witness for C1 at `l = 1`, two recorded steps. -/
theorem C1_witness :
    (0 : ℚ) < 1 ∧
    (plot_stretch 1 [0, 10] = [0, 10].map (spec_stretch 1) ∧
     plot_stress_fem 1 [0, 10] [5, 7] =
       List.zipWith spec_true_stress [5, 7] ([0, 10].map (spec_stretch 1)) ∧
     plot_stress_analytic 1 [0, 10] =
       ([0, 10].map (spec_stretch 1)).map spec_sigma ∧
     plot_pairs 1 [0, 10] [5, 7] =
       List.zip ([0, 10].map (spec_stretch 1))
         (List.zipWith spec_true_stress [5, 7]
           ([0, 10].map (spec_stretch 1)))) :=
  ⟨by norm_num, C1_plot_graphs_refines_spec 1 (by norm_num) [0, 10] [5, 7]⟩

/-- Claim C3: the essential boundary conditions are exactly the four of
`main` — `u.0 = 0` on Left, `u.1 = 0` on Near, `u.2 = 0` on Bottom, and
the time-dependent `disp_fun` on Right — and `get_displacement` returns
`ts.time` times the reference x-coordinate at every point, hence zero
everywhere at `t = 0`. -/
theorem C3_essential_bcs :
    ebcs = [⟨"x_sym", "Left", [("u.0", BCVal.const 0)]⟩,
            ⟨"y_sym", "Near", [("u.1", BCVal.const 0)]⟩,
            ⟨"z_sym", "Bottom", [("u.2", BCVal.const 0)]⟩,
            ⟨"displacement", "Right", [("u.0", BCVal.fn disp_fun)]⟩] ∧
    (∀ (ts : TSObj) (coors : List (ℚ × ℚ × ℚ)) (bc pb : Option Unit),
      get_displacement ts coors bc pb =
        coors.map (fun c => ts.time * c.1)) ∧
    (∀ (s : ℕ) (coors : List (ℚ × ℚ × ℚ)) (bc pb : Option Unit),
      get_displacement ⟨0, s⟩ coors bc pb = coors.map (fun _ => 0)) := by
  refine ⟨rfl, ?_, ?_⟩
  · intro ts coors bc pb
    simp [get_displacement]
  · intro s coors bc pb
    simp [get_displacement]

/-- Claim C4: `stress_strain` queries the evaluator with the same term
names and the same quadrature order `2*order` as the integral of the
assembler,
sums the three stress contributions into the total second Piola-Kirchhoff
stress, and appends the axial stress component and the maximum axial
displacement to the accumulators. -/
theorem C4_stress_strain_consistency (order : ℤ)
    (ev : EvalQuery → List ℚ) (out : Out) (st : PPState) :
    ((strain_query order).term = term_neohook.name ∧
     (stress10_query order).term = term_neohook.name ∧
     (stress01_query order).term = term_mooney.name ∧
     (stressP_query order).term = term_pressure.name) ∧
    ((strain_query order).quad_order = integral_order order ∧
     (stress10_query order).quad_order = integral_order order ∧
     (stress01_query order).quad_order = integral_order order ∧
     (stressP_query order).quad_order = integral_order order) ∧
    (stress_strain ev order out st).1.stress =
      some ⟨"output_data", "cell",
        npAdd (npAdd (ev (stress10_query order)) (ev (stress01_query order)))
          (ev (stressP_query order))⟩ ∧
    (stress_strain ev order out st).1.green_strain =
      some ⟨"output_data", "cell", ev (strain_query order)⟩ ∧
    (stress_strain ev order out st).2.global_stress =
      st.global_stress ++
        [(npAdd (npAdd (ev (stress10_query order))
            (ev (stress01_query order))) (ev (stressP_query order))).getD
          0 0] ∧
    (stress_strain ev order out st).2.global_displacement =
      st.global_displacement ++ [npMax (out.u_data.map (·.1))] :=
  ⟨⟨rfl, rfl, rfl, rfl⟩, ⟨rfl, rfl, rfl, rfl⟩, rfl, rfl, rfl, rfl⟩

/-- Claim C5: the material carries exactly the two scalar parameters
`mu = 2·C10 = 40` and `kappa = 2·C01 = 20`, and its evaluation is constant
in time step, time and position. -/
theorem C5_material_constants :
    m.mu = 2 * C10 ∧ m.kappa = 2 * C01 ∧ m.mu = 40 ∧ m.kappa = 20 ∧
    (∀ (s s' : ℕ) (t t' : ℚ) (x x' : ℚ × ℚ × ℚ),
      material_at s t x = material_at s' t' x') := by
  refine ⟨rfl, rfl, ?_, ?_, fun s s' t t' x x' => rfl⟩
  · norm_num [m, C10]
  · norm_num [m, C01]

/-- Claim C6: for every approximation order passed to `main`, the scalar
pressure field has order exactly one lower than the vector displacement
field. -/
theorem C6_pressure_field_order (order : ℤ) :
    (scalar_field order).approx_order =
      (vector_field order).approx_order - 1 ∧
    (vector_field order).approx_order = order ∧
    (scalar_field order).kind = "scalar" ∧
    (vector_field order).kind = "vector" :=
  ⟨rfl, rfl, rfl, rfl⟩

/-- Claim C7: the volume equation consists exactly of
`dw_tl_volume(q, u)` minus `dw_volume_integrate(q)`, neither term names
the pressure unknown `p`, and consequently the volume residual is
unchanged by any change of `p` alone (so the K_pp tangent block is zero). -/
theorem C7_volume_equation_independent_of_p
    (I : String → List ℚ → ℚ) (env env' : String → ℚ)
    (hq : env "q" = env' "q") (hu : env "u" = env' "u") :
    eq_volume = [(true, ⟨"dw_tl_volume", ["q", "u"]⟩),
                 (false, ⟨"dw_volume_integrate", ["q"]⟩)] ∧
    "p" ∉ term_volume_change.args ∧ "p" ∉ term_volume.args ∧
    eqResidual I env eq_volume = eqResidual I env' eq_volume := by
  refine ⟨rfl, by decide, by decide, ?_⟩
  simp [eqResidual, termValue, eq_volume, term_volume_change, term_volume,
    hq, hu]

/-- Witness for C7: two assignments agreeing on `q`, `u` but not on `p`
give the same volume residual. -/
theorem C7_witness :
    ((fun v : String => if v = "p" then (3 : ℚ) else 1) "q" =
      (fun v : String => if v = "p" then (77 : ℚ) else 1) "q") ∧
    ((fun v : String => if v = "p" then (3 : ℚ) else 1) "u" =
      (fun v : String => if v = "p" then (77 : ℚ) else 1) "u") ∧
    eqResidual (fun _ vals => vals.sum)
        (fun v : String => if v = "p" then (3 : ℚ) else 1) eq_volume =
      eqResidual (fun _ vals => vals.sum)
        (fun v : String => if v = "p" then (77 : ℚ) else 1) eq_volume :=
  ⟨rfl, rfl,
   (C7_volume_equation_independent_of_p (fun _ vals => vals.sum)
     (fun v : String => if v = "p" then (3 : ℚ) else 1)
     (fun v : String => if v = "p" then (77 : ℚ) else 1)
     rfl rfl).2.2.2⟩

/-- Claim C8: each call to `stress_strain` appends exactly one element to
each accumulator and preserves all earlier entries, so equal lengths are
preserved. -/
theorem C8_accumulator_append_only (ev : EvalQuery → List ℚ) (order : ℤ)
    (out : Out) (st : PPState)
    (h : st.global_stress.length = st.global_displacement.length) :
    ∃ s d : ℚ,
      (stress_strain ev order out st).2.global_stress =
        st.global_stress ++ [s] ∧
      (stress_strain ev order out st).2.global_displacement =
        st.global_displacement ++ [d] ∧
      (stress_strain ev order out st).2.global_stress.length =
        st.global_stress.length + 1 ∧
      (stress_strain ev order out st).2.global_displacement.length =
        st.global_displacement.length + 1 ∧
      (stress_strain ev order out st).2.global_stress.length =
        (stress_strain ev order out st).2.global_displacement.length := by
  refine ⟨_, _, rfl, rfl, by simp [stress_strain], by simp [stress_strain],
    by simp [stress_strain, h]⟩

/-- Witness for C8: one call on empty accumulators. -/
theorem C8_witness :
    (PPState.global_stress ⟨[], []⟩).length =
      (PPState.global_displacement ⟨[], []⟩).length ∧
    ∃ s d : ℚ,
      (stress_strain (fun _ => [1, 2]) 1 ⟨[(1, 0, 0)], none, none⟩
          ⟨[], []⟩).2.global_stress = PPState.global_stress ⟨[], []⟩ ++ [s] ∧
      (stress_strain (fun _ => [1, 2]) 1 ⟨[(1, 0, 0)], none, none⟩
          ⟨[], []⟩).2.global_displacement =
        PPState.global_displacement ⟨[], []⟩ ++ [d] ∧
      (stress_strain (fun _ => [1, 2]) 1 ⟨[(1, 0, 0)], none, none⟩
          ⟨[], []⟩).2.global_stress.length =
        (PPState.global_stress ⟨[], []⟩).length + 1 ∧
      (stress_strain (fun _ => [1, 2]) 1 ⟨[(1, 0, 0)], none, none⟩
          ⟨[], []⟩).2.global_displacement.length =
        (PPState.global_displacement ⟨[], []⟩).length + 1 ∧
      (stress_strain (fun _ => [1, 2]) 1 ⟨[(1, 0, 0)], none, none⟩
          ⟨[], []⟩).2.global_stress.length =
        (stress_strain (fun _ => [1, 2]) 1 ⟨[(1, 0, 0)], none, none⟩
          ⟨[], []⟩).2.global_displacement.length :=
  ⟨rfl, C8_accumulator_append_only (fun _ => [1, 2]) 1
    ⟨[(1, 0, 0)], none, none⟩ ⟨[], []⟩ rfl⟩

/-- Claim C9: `get_displacement` depends only on `ts.time` and the first
coordinate column — two calls agreeing on those return equal arrays,
whatever `bc`, `problem` and the other columns are. -/
theorem C9_get_displacement_noninterference (ts ts' : TSObj)
    (coors coors' : List (ℚ × ℚ × ℚ)) (bc bc' pb pb' : Option Unit)
    (htime : ts.time = ts'.time)
    (hcol : coors.map (·.1) = coors'.map (·.1)) :
    get_displacement ts coors bc pb = get_displacement ts' coors' bc' pb' := by
  have key : ∀ (t : ℚ) (cs : List (ℚ × ℚ × ℚ)),
      cs.map (fun c => 1 * t * c.1) =
        (cs.map (·.1)).map (fun x => 1 * t * x) := by
    intro t cs
    rw [List.map_map]
    rfl
  unfold get_displacement
  rw [key, key, htime, hcol]

/-- Witness for C9: equal time and equal x-column, different step counter,
different y/z columns, different `bc`/`problem` arguments. -/
theorem C9_witness :
    (TSObj.mk 2 0).time = (TSObj.mk 2 5).time ∧
    ([((1 : ℚ), (2 : ℚ), (3 : ℚ))].map (·.1) =
      [((1 : ℚ), (9 : ℚ), (9 : ℚ))].map (·.1)) ∧
    get_displacement ⟨2, 0⟩ [(1, 2, 3)] none none =
      get_displacement ⟨2, 5⟩ [(1, 9, 9)] (some ()) (some ()) :=
  ⟨rfl, rfl, C9_get_displacement_noninterference ⟨2, 0⟩ ⟨2, 5⟩
    [(1, 2, 3)] [(1, 9, 9)] none (some ()) none (some ()) rfl rfl⟩

/-- Claim C10: the `centre=None` default of `main` is `[0.5·d for d in dims]`
while the CLI `--centre` default is the constant `[0.5, 0.5, 0.5]`; for a
3-vector of dims the two coincide exactly when dims = [1, 1, 1]. -/
theorem C10_centre_defaults (a b c : ℚ) :
    (∀ dims, main_centre none dims = main_default_centre dims) ∧
    (∀ cen dims, main_centre (some cen) dims = cen) ∧
    (main_centre none [a, b, c] = cli_default_centre ↔
      ([a, b, c] : List ℚ) = [1, 1, 1]) := by
  refine ⟨fun dims => rfl, fun cen dims => rfl, ?_⟩
  simp only [main_centre, main_default_centre, cli_default_centre,
    Option.getD, List.map_cons, List.map_nil, List.cons.injEq,
    and_true]
  constructor
  · rintro ⟨h1, h2, h3⟩
    refine ⟨by linarith, by linarith, by linarith⟩
  · rintro ⟨h1, h2, h3⟩
    refine ⟨by linarith, by linarith, by linarith⟩

end Hyper
